import Mathlib

/-!
Verification of the stream resolution and delivery engine of the r-pod
backend (Python sources under `backend-python/`).

The development shallowly embeds, directly from the source:

* `services/proxy_manager.py` — `ProxyInfo.is_healthy`, `ProxyManager.get_proxy`,
  `ProxyManager.mark_success`, `ProxyManager.mark_failure`.  Timestamps are
  naturals (seconds), latencies are rationals.
* `services/audio_streaming_service_v3.py` — the InnerTube format selection
  (`_extract_stream_url_from_innertube`), the per-strategy retry loops of
  `_try_innertube_client` and `_try_cobalt_api` (upstream responses are an
  oracle indexed by attempt number), and the strategy chain of
  `get_stream_url` (each strategy reported together with the number of
  upstream calls it performed).
* `main.py` — the `stream_youtube` relay endpoint: password check, the
  resolution-failure dispatch, the bounded 403 retry loop, and the response
  header construction (the upstream fetch is an oracle indexed by fetch
  attempt number).

Python dict lookups with defaults become `Option` with `getD`; Python string
operations are re-implemented over `List Char` so that the kernel can
evaluate them on concrete inputs.
-/

/-! ## String helpers (kernel-computable counterparts of Python str ops) -/

/-- Python `s.startswith(p)`. -/
def strStartsWith (s p : String) : Bool :=
  p.data.isPrefixOf s.data

/-- Python `s.lower()` (ASCII, which is all the source compares). -/
def strToLower (s : String) : String :=
  String.mk (s.data.map Char.toLower)

/-- Membership of `pat` as a contiguous substring of a char list:
Python `pat in s`. -/
def charsContain (pat : List Char) : List Char → Bool
  | [] => pat.isEmpty
  | c :: cs => pat.isPrefixOf (c :: cs) || charsContain pat cs

/-- Python `pat in s`. -/
def strContains (s pat : String) : Bool :=
  charsContain pat.data s.data

/-- Python `s.split(sep)` for a one-character separator. -/
def splitOnChar (sep : Char) (l : List Char) : List (List Char) :=
  match l with
  | [] => [[]]
  | c :: cs =>
    let r := splitOnChar sep cs
    if c = sep then [] :: r
    else
      match r with
      | [] => [[c]]
      | h :: t => (c :: h) :: t

/-- Python `m.split(sep)[-1]` then `.split(sep2)[0]` used for the container
extension: `mime.split('/')[-1].split(';')[0]`. -/
def extFromMime (m : String) : String :=
  String.mk (((splitOnChar ';' ((splitOnChar '/' m.data).getLastD [])).headD []))

/-! ## Proxy pool (`services/proxy_manager.py`) -/

/-- `ProxyInfo` dataclass.  `last_used`/`last_success` are timestamps in
seconds; `avg_response_time` is the rolling latency average. -/
structure ProxyInfo where
  url : String
  protocol : String
  failures : Nat
  last_used : Option Nat
  last_success : Option Nat
  avg_response_time : ℚ
deriving DecidableEq

/-- `ProxyInfo.is_healthy`: more than 5 failures is unhealthy; a recorded
last success older than 5 minutes (300 s) is unhealthy; otherwise healthy
(in particular a proxy with no history is healthy). -/
def is_healthy (now : Nat) (p : ProxyInfo) : Bool :=
  if 5 < p.failures then false
  else
    match p.last_success with
    | some t => if 300 < now - t then false else true
    | none => true

/-- The sort key of `ProxyManager.get_proxy`:
`(p.last_used or datetime.min, p.failures, p.avg_response_time)` compared
lexicographically.  `datetime.min` sorts below every stamped timestamp, so
`none` maps to `0` and `some t` to `t + 1`. -/
def lastUsedKey : Option Nat → Nat
  | none => 0
  | some t => t + 1

/-- The full lexicographic key of a proxy. -/
def keyOf (p : ProxyInfo) : Lex (Nat × Lex (Nat × ℚ)) :=
  toLex (lastUsedKey p.last_used, toLex (p.failures, p.avg_response_time))

/-- One comparison step of the sort-and-take-head: keep the accumulator
unless the candidate is strictly smaller (Python stable sort keeps the
earlier element on ties). -/
def pick (b q : ProxyInfo) : ProxyInfo :=
  if keyOf q < keyOf b then q else b

/-- Head of the stably sorted healthy list: the first element minimal under
`keyOf`. -/
def pickBest : List ProxyInfo → Option ProxyInfo
  | [] => none
  | p :: ps => some (ps.foldl pick p)

/-- `proxy.last_used = datetime.now()` stamping. -/
def stampUsed (now : Nat) (p : ProxyInfo) : ProxyInfo :=
  { p with last_used := some now }

/-- In-place mutation of the chosen proxy, seen from the pool list. -/
def replaceFirst (pool : List ProxyInfo) (old new : ProxyInfo) : List ProxyInfo :=
  match pool with
  | [] => []
  | q :: qs => if q = old then new :: qs else q :: replaceFirst qs old new

/-- `ProxyManager.get_proxy`: filter to healthy proxies, return `none` if
none remain, otherwise sort by the key and return the head with its
`last_used` stamped to now. -/
def get_proxy (now : Nat) (pool : List ProxyInfo) : Option ProxyInfo × List ProxyInfo :=
  match pickBest (pool.filter (fun p => is_healthy now p)) with
  | none => (none, pool)
  | some p => (some (stampUsed now p), replaceFirst pool p (stampUsed now p))

/-- `ProxyManager.mark_success`: stamp `last_success`, decrement `failures`
with a floor at 0 (`max(0, failures - 1)` is Nat subtraction), and update
the latency average — set directly when the stored average is `0`, else
`0.7 * old + 0.3 * new`. -/
def mark_success (now : Nat) (response_time : ℚ) (p : ProxyInfo) : ProxyInfo :=
  { p with
    last_success := some now
    failures := p.failures - 1
    avg_response_time :=
      if p.avg_response_time = 0 then response_time
      else (7 : ℚ) / 10 * p.avg_response_time + (3 : ℚ) / 10 * response_time }

/-- `ProxyManager.mark_failure`: increment `failures`; nothing is removed
from the pool. -/
def mark_failure (p : ProxyInfo) : ProxyInfo :=
  { p with failures := p.failures + 1 }

/-! ## InnerTube player response and format selection
(`_extract_stream_url_from_innertube`) -/

/-- One entry of `streamingData.adaptiveFormats` / `streamingData.formats`.
All fields are optional dict lookups in the source. -/
structure InnerFormat where
  mimeType : Option String
  bitrate : Option Nat
  url : Option String
  itag : Option Nat
deriving DecidableEq

/-- The `streamingData` object. -/
structure StreamingData where
  adaptiveFormats : List InnerFormat
  formats : List InnerFormat
deriving DecidableEq

/-- The `videoDetails` object (missing keys are `none`). -/
structure VideoDetails where
  lengthSeconds : Option Nat
  title : Option String
deriving DecidableEq

/-- The parsed player response. -/
structure PlayerResponse where
  streamingData : Option StreamingData
  videoDetails : VideoDetails
deriving DecidableEq

/-- The dict returned by every successful strategy. -/
structure StreamResult where
  url : String
  format_id : Option String
  ext : String
  bitrate : Option Nat
  duration : Option Nat
  title : Option String
  strategy : String
deriving DecidableEq

/-- `f.get("mimeType", "").startswith("audio/")`. -/
def isAudioOnlyFmt (f : InnerFormat) : Bool :=
  strStartsWith (f.mimeType.getD "") "audio/"

/-- `"audio" in f.get("mimeType", "").lower()`. -/
def hasAudioTrack (f : InnerFormat) : Bool :=
  strContains (strToLower (f.mimeType.getD "")) "audio"

/-- `adaptiveFormats` if non-empty, else `formats`. -/
def chosenFormats (sd : StreamingData) : List InnerFormat :=
  if sd.adaptiveFormats.isEmpty then sd.formats else sd.adaptiveFormats

/-- Audio-only formats, falling back to formats merely carrying an audio
codec when no audio-only format exists. -/
def audioCandidates (formats : List InnerFormat) : List InnerFormat :=
  let audioOnly := formats.filter isAudioOnlyFmt
  if audioOnly.isEmpty then formats.filter hasAudioTrack else audioOnly

/-- `x.get("bitrate", 0)` — the sort key of the `max` call. -/
def bitrateKey (f : InnerFormat) : Nat :=
  f.bitrate.getD 0

/-- One step of Python `max`: a later element replaces the current best
only when its key is strictly larger. -/
def pickFmt (b x : InnerFormat) : InnerFormat :=
  if bitrateKey b < bitrateKey x then x else b

/-- Python `max(formats, key=...)`: the first element attaining the maximal
key. -/
def pyMaxBitrate : List InnerFormat → Option InnerFormat
  | [] => none
  | f :: fs => some (fs.foldl pickFmt f)

/-- The dict built from the best format and `videoDetails`. -/
def mkInnerResult (best : InnerFormat) (vd : VideoDetails) (cn : String) : StreamResult :=
  { url := best.url.getD ""
    format_id := some (match best.itag with | some n => toString n | none => "None")
    ext := extFromMime (best.mimeType.getD "audio/mp4")
    bitrate := best.bitrate
    duration := vd.lengthSeconds
    title := vd.title
    strategy := "innertube_" ++ strToLower cn }

/-- The tail of `_extract_stream_url_from_innertube`: take the URL of the
best format, returning `None` if it is missing or empty. -/
def finishResult (best : InnerFormat) (vd : VideoDetails) (cn : String) : Option StreamResult :=
  match best.url with
  | none => none
  | some u => if u = "" then none else some (mkInnerResult best vd cn)

/-- `_extract_stream_url_from_innertube`. -/
def extractStreamUrl (pr : PlayerResponse) (cn : String) : Option StreamResult :=
  match pr.streamingData with
  | none => none
  | some sd =>
    let formats := chosenFormats sd
    if formats.isEmpty then none
    else
      let cands := audioCandidates formats
      if cands.isEmpty then none
      else
        match pyMaxBitrate cands with
        | none => none
        | some best => finishResult best pr.videoDetails cn

/-! ## Per-strategy retry loops (`_try_innertube_client`, `_try_cobalt_api`)

Upstream responses are an oracle indexed by the attempt number; a transport
exception and a parsed response are the two possible outcomes of an
attempt. -/

/-- Outcome of one InnerTube player POST. -/
inductive NetResp where
  | err : NetResp
  | resp (status : Nat) (body : PlayerResponse) : NetResp

/-- The `for attempt in range(3)` loop of `_try_innertube_client`: a
transport error or a non-200 status consumes the attempt and continues; a
200 response ends the strategy with the extraction result (even when that
result is `None`).  Returns the result and the number of upstream calls
made. -/
def innertubeLoop (net : Nat → NetResp) (cn : String) : Nat → Nat → Option StreamResult × Nat
  | _, 0 => (none, 0)
  | i, k + 1 =>
    match net i with
    | .err =>
      let r := innertubeLoop net cn (i + 1) k
      (r.1, r.2 + 1)
    | .resp status body =>
      if status = 200 then (extractStreamUrl body cn, 1)
      else
        let r := innertubeLoop net cn (i + 1) k
        (r.1, r.2 + 1)

/-- `_try_innertube_client`: 3 attempts. -/
def tryInnertubeClient (net : Nat → NetResp) (cn : String) : Option StreamResult × Nat :=
  innertubeLoop net cn 0 3

/-- The parsed JSON of a Cobalt instance response. -/
structure CobaltBody where
  status : String
  url : Option String
deriving DecidableEq

/-- Outcome of one Cobalt POST. -/
inductive CobaltNet where
  | err : CobaltNet
  | resp (status : Nat) (body : CobaltBody) : CobaltNet

/-- The dict built on Cobalt success. -/
def mkCobaltResult (u : String) : StreamResult :=
  { url := u, format_id := some "cobalt", ext := "m4a", bitrate := none
    duration := none, title := none, strategy := "cobalt_api" }

/-- One Cobalt attempt: a result is produced only for a 200 response whose
body status is stream/redirect/tunnel and whose url is present and
non-empty; every other outcome falls through to the next attempt. -/
def cobaltStep : CobaltNet → Option StreamResult
  | .err => none
  | .resp status body =>
    if status = 200 then
      if body.status = "stream" ∨ body.status = "redirect" ∨ body.status = "tunnel" then
        match body.url with
        | some u => if u = "" then none else some (mkCobaltResult u)
        | none => none
      else none
    else none

/-- The `for attempt in range(2)` loop run per Cobalt instance. -/
def cobaltInstanceLoop (net : Nat → CobaltNet) : Nat → Nat → Option StreamResult × Nat
  | _, 0 => (none, 0)
  | i, k + 1 =>
    match cobaltStep (net i) with
    | some r => (some r, 1)
    | none =>
      let rest := cobaltInstanceLoop net (i + 1) k
      (rest.1, rest.2 + 1)

/-- `_try_cobalt_api`: two instances, two attempts each (attempt indices
continue across instances). -/
def tryCobaltApi (net : Nat → CobaltNet) : Option StreamResult × Nat :=
  let first := cobaltInstanceLoop net 0 2
  match first.1 with
  | some r => (some r, first.2)
  | none =>
    let second := cobaltInstanceLoop net first.2 2
    (second.1, first.2 + second.2)

/-! ## Strategy chain (`AudioStreamingService.get_stream_url`) -/

/-- What one strategy invocation yields: its return value (an exception and
a `None` return behave identically in the chain loop, so both are
`result = none`) and the number of upstream network calls it made. -/
structure StrategyOutcome where
  result : Option StreamResult
  upstreamCalls : Nat

/-- The chain loop of `get_stream_url`: try each strategy in order and
return the first result that is truthy and has a truthy url; otherwise
return `None`.  The upstream call count accumulates over the strategies
actually run. -/
def runChain : List (String → StrategyOutcome) → String → StrategyOutcome
  | [], _ => ⟨none, 0⟩
  | s :: rest, vid =>
    let t := s vid
    match t.result with
    | some r =>
      if r.url = "" then
        let u := runChain rest vid
        ⟨u.result, t.upstreamCalls + u.upstreamCalls⟩
      else ⟨some r, t.upstreamCalls⟩
    | none =>
      let u := runChain rest vid
      ⟨u.result, t.upstreamCalls + u.upstreamCalls⟩

/-- The service state: the `self.cache` dict created in `__init__` and the
ordered strategy list. -/
structure AudioStreamingService where
  cache : List (String × StreamResult)
  strategies : List (String → StrategyOutcome)

/-- `get_stream_url`: runs the chain.  The method neither reads nor writes
`self.cache`, so the state is returned unchanged. -/
def AudioStreamingService.get_stream_url (svc : AudioStreamingService) (vid : String) :
    StrategyOutcome × AudioStreamingService :=
  (runChain svc.strategies vid, svc)

/-- A strategy fails at `vid` when it returns `None` (or raises) or returns
a dict with a falsy url. -/
def strategyFailsAt (s : String → StrategyOutcome) (vid : String) : Prop :=
  ∀ r, (s vid).result = some r → r.url = ""

/-- An InnerTube client strategy as an element of the chain, over a fixed
upstream oracle (one upstream call per attempt of the retry loop). -/
def innertubeStrategy (net : Nat → NetResp) (cn : String) : String → StrategyOutcome :=
  fun _ => ⟨(tryInnertubeClient net cn).1, (tryInnertubeClient net cn).2⟩

/-! ## Streaming relay (`stream_youtube` in `main.py`) -/

/-- The resolver result as the relay reads it:
`stream_info.get("url")`, `stream_info.get("error")`,
`stream_info.get("error_message")`. -/
structure StreamInfoDict where
  url : Option String
  error : Option String
  error_message : Option String
deriving DecidableEq

/-- An upstream byte-fetch response: status and the headers the relay
copies, plus the body. -/
structure FetchResp where
  status : Nat
  contentType : Option String
  contentLength : Option String
  contentRange : Option String
  body : String
deriving DecidableEq

/-- What the endpoint hands back: either `HTTPException(status, detail)` or
a response with status, headers and body. -/
inductive RelayOutcome where
  | httpError (status : Nat) (detail : String) : RelayOutcome
  | ok (status : Nat) (headers : List (String × String)) (body : String) : RelayOutcome
deriving DecidableEq

/-- The response headers built on the success path: Content-Type (default
`audio/webm`), `Accept-Ranges: bytes`, no-cache, permissive CORS, and
Content-Length / Content-Range copied from upstream when present. -/
def responseHeaders (r : FetchResp) : List (String × String) :=
  [("Content-Type", r.contentType.getD "audio/webm"),
   ("Accept-Ranges", "bytes"),
   ("Cache-Control", "no-cache"),
   ("Access-Control-Allow-Origin", "*"),
   ("Access-Control-Allow-Methods", "GET, HEAD, OPTIONS"),
   ("Access-Control-Allow-Headers", "Range, Content-Type"),
   ("Access-Control-Expose-Headers", "Content-Length, Content-Range, Accept-Ranges")]
  ++ (match r.contentLength with | some v => [("Content-Length", v)] | none => [])
  ++ (match r.contentRange with | some v => [("Content-Range", v)] | none => [])

/-- The passthrough response of the success path. -/
def mkOk (r : FetchResp) : RelayOutcome :=
  .ok r.status (responseHeaders r) r.body

/-- The `while retry_count <= max_retries` fetch loop.  `fetch` is the
upstream oracle indexed by fetch attempt, `resolve` the resolver oracle
indexed by resolution call (call 0 happened before the loop).  The last
argument is the number of retries still allowed (`max_retries -
retry_count`).  On a 403 with retries left the relay re-resolves and
retries with the fresh URL; on a 403 with the budget exhausted it raises
403 "Stream access denied"; any other status is passed through.  Returns
the outcome and the total number of fetch attempts made from this point. -/
def streamLoop (resolve : Nat → Option StreamInfoDict) (fetch : Nat → FetchResp) :
    String → Nat → Nat → Nat → RelayOutcome × Nat
  | _, fetchIdx, _, 0 =>
    if (fetch fetchIdx).status = 403 then
      (.httpError 403 "Stream access denied - YouTube URL expired", fetchIdx + 1)
    else (mkOk (fetch fetchIdx), fetchIdx + 1)
  | _, fetchIdx, resolveIdx, k + 1 =>
    if (fetch fetchIdx).status = 403 then
      match resolve resolveIdx with
      | none => (.httpError 503 "Stream URL unavailable after retries", fetchIdx + 1)
      | some si =>
        match si.url with
        | none => (.httpError 503 "Stream URL unavailable after retries", fetchIdx + 1)
        | some u =>
          if u = "" then (.httpError 503 "Stream URL unavailable after retries", fetchIdx + 1)
          else streamLoop resolve fetch u (fetchIdx + 1) (resolveIdx + 1) k
    else (mkOk (fetch fetchIdx), fetchIdx + 1)

/-- The `stream_youtube` endpoint: password check (query parameter or
`X-Server-Password` header against the configured password), initial
resolution, the `YOUTUBE_PROTECTION` / missing-url dispatch, then the fetch
loop with `max_retries = 3`.  Returns the outcome and the number of
upstream fetch attempts made. -/
def stream_youtube (password xpass serverPassword : Option String)
    (resolve : Nat → Option StreamInfoDict) (fetch : Nat → FetchResp) :
    RelayOutcome × Nat :=
  if password ≠ serverPassword ∧ xpass ≠ serverPassword then
    (.httpError 401 "Unauthorized", 0)
  else
    match resolve 0 with
    | none => (.httpError 503 "Stream URL not available", 0)
    | some si =>
      if si.error = some "YOUTUBE_PROTECTION" then
        (.httpError 451
          (si.error_message.getD "Content temporarily unavailable due to YouTube protections"), 0)
      else
        match si.url with
        | none => (.httpError 503 "Stream URL not available", 0)
        | some u =>
          if u = "" then (.httpError 503 "Stream URL not available", 0)
          else streamLoop resolve fetch u 0 1 3

/-- The relay-side view of a successful v3 resolver result: the strategies
of `audio_streaming_service_v3.py` never put an `error` key in their
dicts. -/
def toDict (r : StreamResult) : StreamInfoDict :=
  { url := some r.url, error := none, error_message := none }

/-- The resolver oracle induced by a v3 strategy chain: every resolution
call re-runs the chain (there is no cache), and `None` stays `None`. -/
def resolverResolve (strategies : List (String → StrategyOutcome)) (vid : String) :
    Nat → Option StreamInfoDict :=
  fun _ => (runChain strategies vid).result.map toDict

/-- Classification used by claim C5: an attempt that the strategy loop
retries past — a transport error or a non-200 status. -/
def innertubeTransientFail : NetResp → Prop
  | .err => True
  | .resp status _ => status ≠ 200

/-! ## Concrete inputs used by witnesses and counterexamples -/

/-- An audio-only 128 kbps format. -/
def fmt128 : InnerFormat :=
  ⟨some "audio/mp4; codecs=mp4a", some 128000, some "https://u128", some 140⟩

/-- An audio-only 256 kbps format. -/
def fmt256 : InnerFormat :=
  ⟨some "audio/webm; codecs=opus", some 256000, some "https://u256", some 251⟩

/-- A video format with a larger bitrate than every audio format. -/
def fmtVideo : InnerFormat :=
  ⟨some "video/mp4; codecs=avc1", some 999999, some "https://uvid", some 18⟩

/-- A streaming-data object with the two audio formats and the video one. -/
def sdW : StreamingData := ⟨[fmt128, fmtVideo, fmt256], []⟩

/-- A full player response around `sdW`. -/
def prW : PlayerResponse := ⟨some sdW, ⟨some 215, some "Song"⟩⟩

/-- A player response with no `streamingData` — what an upstream
"not playable"/protection rejection looks like to the extractor. -/
def prEmpty : PlayerResponse := ⟨none, ⟨none, none⟩⟩

/-- An upstream oracle whose every attempt answers 200 with `prW`. -/
def netOK : Nat → NetResp := fun _ => .resp 200 prW

/-- An upstream oracle whose every attempt answers 500. -/
def innertube500 : Nat → NetResp := fun _ => .resp 500 prEmpty

/-- An upstream oracle whose every attempt answers 200 with a
protection-style body carrying no `streamingData`. -/
def netProt : Nat → NetResp := fun _ => .resp 200 prEmpty

/-- A Cobalt oracle whose every attempt raises a transport error. -/
def cobaltAllErr : Nat → CobaltNet := fun _ => .err

/-- A service whose single strategy succeeds with one upstream call. -/
def svcOnce : AudioStreamingService :=
  ⟨[], [innertubeStrategy netOK "WEB_REMIX"]⟩

/-- A result dict with a falsy url. -/
def blankResult : StreamResult :=
  ⟨"", none, "", none, none, none, "innertube_web_remix"⟩

/-- A service whose strategies all fail: one returns `None` after 3
upstream calls, one returns a dict with an empty url after 2. -/
def svcFail : AudioStreamingService :=
  ⟨[], [fun _ => ⟨none, 3⟩, fun _ => ⟨some blankResult, 2⟩]⟩

/-- A chain whose only strategy receives the protection-style 200 body. -/
def chainProt : List (String → StrategyOutcome) :=
  [innertubeStrategy netProt "WEB_REMIX"]

/-- A resolver dict with a good url and no error marker. -/
def goodDict : StreamInfoDict := ⟨some "https://r.example/a", none, none⟩

/-- A resolver oracle that always succeeds with `goodDict`. -/
def resolveGood : Nat → Option StreamInfoDict := fun _ => some goodDict

/-- A resolver dict carrying the `YOUTUBE_PROTECTION` marker. -/
def protDict : StreamInfoDict :=
  ⟨some "https://u", some "YOUTUBE_PROTECTION", some "blocked"⟩

/-- A fetch oracle whose every attempt returns 403. -/
def fetch403 : Nat → FetchResp := fun _ => ⟨403, none, none, none, ""⟩

/-- A fetch oracle whose every attempt returns 404 with a body. -/
def fetch404 : Nat → FetchResp :=
  fun _ => ⟨404, some "text/plain", some "9", none, "not found"⟩

/-- A stale unhealthy proxy: 7 failures. -/
def proxyA : ProxyInfo := ⟨"http://a", "http", 7, none, none, 0⟩

/-- A healthy proxy used at time 10 with a success at time 900. -/
def proxyB : ProxyInfo := ⟨"http://b", "http", 2, some 10, some 900, 0⟩

/-- A healthy never-used proxy with more failures than `proxyB`. -/
def proxyC : ProxyInfo := ⟨"http://c", "http", 3, none, none, 0⟩

/-- The witness pool. -/
def poolW : List ProxyInfo := [proxyA, proxyB, proxyC]

/-- `proxyC` stamped at time 1000, the expected pick from `poolW`. -/
def chosenW : ProxyInfo := ⟨"http://c", "http", 3, some 1000, none, 0⟩

/-- A proxy with no latency history and a zero average. -/
def proxyZero : ProxyInfo := ⟨"http://z", "http", 0, none, none, 0⟩

/-- A fresh proxy with 2 failures and no latency history. -/
def proxyFresh : ProxyInfo := ⟨"http://f", "http", 2, none, none, 0⟩

/-! ## Helper lemmas: the fold of `pickBest` picks a minimal element -/

theorem pick_key_le_left (b q : ProxyInfo) : keyOf (pick b q) ≤ keyOf b := by
  unfold pick
  split
  · exact le_of_lt (by assumption)
  · exact le_refl _

theorem pick_key_le_right (b q : ProxyInfo) : keyOf (pick b q) ≤ keyOf q := by
  unfold pick
  split
  · exact le_refl _
  · exact le_of_not_lt (by assumption)

theorem pick_eq_or (b q : ProxyInfo) : pick b q = b ∨ pick b q = q := by
  unfold pick
  split
  · exact Or.inr rfl
  · exact Or.inl rfl

theorem foldl_pick_key_le_acc (l : List ProxyInfo) :
    ∀ a : ProxyInfo, keyOf (l.foldl pick a) ≤ keyOf a := by
  induction l with
  | nil => intro a; exact le_refl _
  | cons q l ih =>
    intro a
    calc keyOf ((q :: l).foldl pick a) = keyOf (l.foldl pick (pick a q)) := rfl
      _ ≤ keyOf (pick a q) := ih (pick a q)
      _ ≤ keyOf a := pick_key_le_left a q

theorem foldl_pick_key_le_mem (l : List ProxyInfo) :
    ∀ (a g : ProxyInfo), g ∈ l → keyOf (l.foldl pick a) ≤ keyOf g := by
  induction l with
  | nil => intro a g hg; cases hg
  | cons q l ih =>
    intro a g hg
    rcases List.mem_cons.mp hg with rfl | hg2
    · calc keyOf ((g :: l).foldl pick a) = keyOf (l.foldl pick (pick a g)) := rfl
        _ ≤ keyOf (pick a g) := foldl_pick_key_le_acc l (pick a g)
        _ ≤ keyOf g := pick_key_le_right a g
    · exact ih (pick a q) g hg2

theorem foldl_pick_mem (l : List ProxyInfo) :
    ∀ a : ProxyInfo, l.foldl pick a = a ∨ l.foldl pick a ∈ l := by
  induction l with
  | nil => intro a; exact Or.inl rfl
  | cons q l ih =>
    intro a
    rcases ih (pick a q) with h | h
    · rcases pick_eq_or a q with h2 | h2
      · exact Or.inl (by rw [List.foldl_cons, h, h2])
      · exact Or.inr (by rw [List.foldl_cons, h, h2]; exact List.mem_cons_self q l)
    · exact Or.inr (List.mem_cons_of_mem q h)

theorem pickBest_spec (l : List ProxyInfo) (p : ProxyInfo) (h : pickBest l = some p) :
    p ∈ l ∧ ∀ g ∈ l, keyOf p ≤ keyOf g := by
  cases l with
  | nil => cases h
  | cons a l =>
    have hp : p = l.foldl pick a := by
      have := h
      unfold pickBest at this
      exact (Option.some.injEq _ _ ▸ this.symm)
    constructor
    · rcases foldl_pick_mem l a with h2 | h2
      · rw [hp, h2]; exact List.mem_cons_self a l
      · rw [hp]; exact List.mem_cons_of_mem a h2
    · intro g hg
      rcases List.mem_cons.mp hg with rfl | hg2
      · rw [hp]; exact foldl_pick_key_le_acc l g
      · rw [hp]; exact foldl_pick_key_le_mem l a g hg2

theorem healthy_failures_le (now : Nat) (p : ProxyInfo) (h : is_healthy now p = true) :
    p.failures ≤ 5 := by
  by_cases h5 : 5 < p.failures
  · simp [is_healthy, h5] at h
  · omega

/-- Claim C7: `get_proxy` returns `none` exactly when no proxy is healthy;
otherwise it returns a healthy proxy, minimal among the healthy proxies
under the (least-recently-used, failures, average-latency) lexicographic
key, with its `last_used` stamped to now; in particular the returned proxy
never has more than 5 failures. -/
theorem get_proxy_spec (now : Nat) (pool : List ProxyInfo) :
    ((∀ p ∈ pool, is_healthy now p = false) → (get_proxy now pool).1 = none) ∧
    ((∃ p ∈ pool, is_healthy now p = true) → ∃ q, (get_proxy now pool).1 = some q) ∧
    (∀ q, (get_proxy now pool).1 = some q →
      q.last_used = some now ∧ q.failures ≤ 5 ∧
      ∃ p ∈ pool, is_healthy now p = true ∧ q = stampUsed now p ∧
        ∀ r ∈ pool, is_healthy now r = true → keyOf p ≤ keyOf r) := by
  refine ⟨?_, ?_, ?_⟩
  · intro h
    have hf : pool.filter (fun p => is_healthy now p) = [] := by
      rw [List.filter_eq_nil_iff]
      intro a ha
      simp [h a ha]
    simp [get_proxy, hf, pickBest]
  · rintro ⟨p, hp, hh⟩
    have hmem : p ∈ pool.filter (fun p => is_healthy now p) :=
      List.mem_filter.mpr ⟨hp, hh⟩
    cases hf : pool.filter (fun p => is_healthy now p) with
    | nil => rw [hf] at hmem; cases hmem
    | cons x xs =>
      exact ⟨stampUsed now (xs.foldl pick x), by simp [get_proxy, hf, pickBest]⟩
  · intro q hq
    unfold get_proxy at hq
    cases hpb : pickBest (pool.filter (fun p => is_healthy now p)) with
    | none => rw [hpb] at hq; cases hq
    | some p =>
      rw [hpb] at hq
      have hq2 : q = stampUsed now p := by
        have := hq
        simp at this
        exact this.symm
      obtain ⟨hmem, hmin⟩ := pickBest_spec _ _ hpb
      obtain ⟨hpool, hh⟩ := List.mem_filter.mp hmem
      refine ⟨by rw [hq2]; rfl, ?_, p, hpool, hh, hq2, ?_⟩
      · have : q.failures = p.failures := by rw [hq2]; rfl
        rw [this]
        exact healthy_failures_le now p hh
      · intro r hr hhr
        exact hmin r (List.mem_filter.mpr ⟨hr, hhr⟩)

/-- Witness for C7 on a concrete pool: the unhealthy `proxyA` is skipped,
and the never-used `proxyC` beats `proxyB` on the least-recently-used key
despite having more failures. -/
theorem get_proxy_spec_w :
    (get_proxy 1000 poolW).1 = some chosenW ∧
    (chosenW.last_used = some 1000 ∧ chosenW.failures ≤ 5 ∧
     ∃ p ∈ poolW, is_healthy 1000 p = true ∧ chosenW = stampUsed 1000 p ∧
       ∀ r ∈ poolW, is_healthy 1000 r = true → keyOf p ≤ keyOf r) :=
  ⟨by decide, (get_proxy_spec 1000 poolW).2.2 chosenW (by decide)⟩

/-- Claim C8 (amended): `mark_success` stamps `last_success`, decrements
`failures` by one with a floor at zero, and sets the average directly
whenever the stored average is zero — which is the first sample whenever
all reported latencies are positive; with a positive first latency, two
consecutive calls produce the exponential moving average
`0.7 * l1 + 0.3 * l2`. -/
theorem mark_success_spec (p : ProxyInfo) (now1 now2 : Nat) (l1 l2 : ℚ)
    (h0 : p.avg_response_time = 0) (hl1 : 0 < l1) :
    (mark_success now1 l1 p).last_success = some now1 ∧
    (mark_success now1 l1 p).failures = p.failures - 1 ∧
    (mark_success now1 l1 p).avg_response_time = l1 ∧
    (mark_success now2 l2 (mark_success now1 l1 p)).avg_response_time
      = (7 : ℚ) / 10 * l1 + (3 : ℚ) / 10 * l2 ∧
    (mark_success now2 l2 (mark_success now1 l1 p)).failures = p.failures - 2 := by
  have hne : l1 ≠ 0 := ne_of_gt hl1
  refine ⟨rfl, rfl, by simp [mark_success, h0], ?_, ?_⟩
  · simp [mark_success, h0, hne]
  · simp [mark_success]
    omega

/-- Witness for C8 on a fresh proxy with latencies 2 then 4. -/
theorem mark_success_spec_w :
    proxyFresh.avg_response_time = 0 ∧ (0 : ℚ) < 2 ∧
    ((mark_success 1 2 proxyFresh).last_success = some 1 ∧
     (mark_success 1 2 proxyFresh).failures = proxyFresh.failures - 1 ∧
     (mark_success 1 2 proxyFresh).avg_response_time = 2 ∧
     (mark_success 3 4 (mark_success 1 2 proxyFresh)).avg_response_time
       = (7 : ℚ) / 10 * 2 + (3 : ℚ) / 10 * 4 ∧
     (mark_success 3 4 (mark_success 1 2 proxyFresh)).failures = proxyFresh.failures - 2) :=
  ⟨rfl, by norm_num, mark_success_spec proxyFresh 1 3 2 4 rfl (by norm_num)⟩

/-- Counterexample for C8 as stated: with a first reported latency of 0 the
code stores 0, and the second call then sets the average directly to the
second latency instead of applying the exponential-moving-average formula,
so for the distinct latencies 0 then 1 the stored average is 1, not
`0.7 * 0 + 0.3 * 1`. -/
theorem mark_success_ema_cex :
    (mark_success 2 1 (mark_success 1 0 proxyZero)).avg_response_time = 1 ∧
    (7 : ℚ) / 10 * 0 + (3 : ℚ) / 10 * 1 ≠ 1 := by
  constructor
  · simp [mark_success, proxyZero]
  · norm_num

/-! ## Helper lemmas: Python `max` over the bitrate key -/

theorem pickFmt_ge_left (b x : InnerFormat) : bitrateKey b ≤ bitrateKey (pickFmt b x) := by
  unfold pickFmt
  split
  · exact le_of_lt (by assumption)
  · exact le_refl _

theorem pickFmt_ge_right (b x : InnerFormat) : bitrateKey x ≤ bitrateKey (pickFmt b x) := by
  unfold pickFmt
  split
  · exact le_refl _
  · exact le_of_not_lt (by assumption)

theorem pickFmt_eq_or (b x : InnerFormat) : pickFmt b x = b ∨ pickFmt b x = x := by
  unfold pickFmt
  split
  · exact Or.inr rfl
  · exact Or.inl rfl

theorem foldl_pickFmt_ge_acc (l : List InnerFormat) :
    ∀ a : InnerFormat, bitrateKey a ≤ bitrateKey (l.foldl pickFmt a) := by
  induction l with
  | nil => intro a; exact le_refl _
  | cons x l ih =>
    intro a
    calc bitrateKey a ≤ bitrateKey (pickFmt a x) := pickFmt_ge_left a x
      _ ≤ bitrateKey (l.foldl pickFmt (pickFmt a x)) := ih (pickFmt a x)
      _ = bitrateKey ((x :: l).foldl pickFmt a) := rfl

theorem foldl_pickFmt_ge_mem (l : List InnerFormat) :
    ∀ (a g : InnerFormat), g ∈ l → bitrateKey g ≤ bitrateKey (l.foldl pickFmt a) := by
  induction l with
  | nil => intro a g hg; cases hg
  | cons x l ih =>
    intro a g hg
    rcases List.mem_cons.mp hg with rfl | hg2
    · calc bitrateKey g ≤ bitrateKey (pickFmt a g) := pickFmt_ge_right a g
        _ ≤ bitrateKey (l.foldl pickFmt (pickFmt a g)) := foldl_pickFmt_ge_acc l (pickFmt a g)
        _ = bitrateKey ((g :: l).foldl pickFmt a) := rfl
    · exact ih (pickFmt a x) g hg2

theorem foldl_pickFmt_mem (l : List InnerFormat) :
    ∀ a : InnerFormat, l.foldl pickFmt a = a ∨ l.foldl pickFmt a ∈ l := by
  induction l with
  | nil => intro a; exact Or.inl rfl
  | cons x l ih =>
    intro a
    rcases ih (pickFmt a x) with h | h
    · rcases pickFmt_eq_or a x with h2 | h2
      · exact Or.inl (by rw [List.foldl_cons, h, h2])
      · exact Or.inr (by rw [List.foldl_cons, h, h2]; exact List.mem_cons_self x l)
    · exact Or.inr (List.mem_cons_of_mem x h)

theorem pyMaxBitrate_spec (l : List InnerFormat) (h : l ≠ []) :
    ∃ best, pyMaxBitrate l = some best ∧ best ∈ l ∧
      ∀ g ∈ l, bitrateKey g ≤ bitrateKey best := by
  cases l with
  | nil => exact absurd rfl h
  | cons a l =>
    refine ⟨l.foldl pickFmt a, rfl, ?_, ?_⟩
    · rcases foldl_pickFmt_mem l a with h2 | h2
      · rw [h2]; exact List.mem_cons_self a l
      · exact List.mem_cons_of_mem a h2
    · intro g hg
      rcases List.mem_cons.mp hg with rfl | hg2
      · exact foldl_pickFmt_ge_acc l g
      · exact foldl_pickFmt_ge_mem l a g hg2

theorem audioCandidates_nil : audioCandidates [] = [] := rfl

theorem extract_via_candidates (pr : PlayerResponse) (cn : String) (sd : StreamingData)
    (hsd : pr.streamingData = some sd) (best : InnerFormat)
    (h : pyMaxBitrate (audioCandidates (chosenFormats sd)) = some best) :
    extractStreamUrl pr cn = finishResult best pr.videoDetails cn := by
  have hcand : audioCandidates (chosenFormats sd) ≠ [] := by
    intro he
    rw [he] at h
    cases h
  have hfs : chosenFormats sd ≠ [] := by
    intro he
    apply hcand
    rw [he]
    exact audioCandidates_nil
  simp [extractStreamUrl, hsd, List.isEmpty_iff, hfs, hcand, h]

/-- Claim C6: when the chosen format list has at least one audio-only
format, selection picks an audio-only format of maximal numeric bitrate
(missing bitrates count as 0), and the returned dict is built from that
format's URL; only when no audio-only format exists does selection fall
back to the formats merely carrying an audio codec, again by maximal
bitrate. -/
theorem extract_selects_best_audio (pr : PlayerResponse) (cn : String) (sd : StreamingData)
    (hsd : pr.streamingData = some sd) :
    ((chosenFormats sd).filter isAudioOnlyFmt ≠ [] →
      ∃ best, pyMaxBitrate ((chosenFormats sd).filter isAudioOnlyFmt) = some best ∧
        best ∈ (chosenFormats sd).filter isAudioOnlyFmt ∧
        (∀ g ∈ (chosenFormats sd).filter isAudioOnlyFmt, bitrateKey g ≤ bitrateKey best) ∧
        extractStreamUrl pr cn = finishResult best pr.videoDetails cn) ∧
    ((chosenFormats sd).filter isAudioOnlyFmt = [] →
      (chosenFormats sd).filter hasAudioTrack ≠ [] →
      ∃ best, pyMaxBitrate ((chosenFormats sd).filter hasAudioTrack) = some best ∧
        best ∈ (chosenFormats sd).filter hasAudioTrack ∧
        (∀ g ∈ (chosenFormats sd).filter hasAudioTrack, bitrateKey g ≤ bitrateKey best) ∧
        extractStreamUrl pr cn = finishResult best pr.videoDetails cn) := by
  constructor
  · intro hA
    have hcand : audioCandidates (chosenFormats sd)
        = (chosenFormats sd).filter isAudioOnlyFmt := by
      simp [audioCandidates, List.isEmpty_iff, hA]
    obtain ⟨best, h1, h2, h3⟩ := pyMaxBitrate_spec _ hA
    exact ⟨best, h1, h2, h3,
      extract_via_candidates pr cn sd hsd best (by rw [hcand]; exact h1)⟩
  · intro hA hB
    have hcand : audioCandidates (chosenFormats sd)
        = (chosenFormats sd).filter hasAudioTrack := by
      simp [audioCandidates, List.isEmpty_iff, hA]
    obtain ⟨best, h1, h2, h3⟩ := pyMaxBitrate_spec _ hB
    exact ⟨best, h1, h2, h3,
      extract_via_candidates pr cn sd hsd best (by rw [hcand]; exact h1)⟩

/-- Witness for C6: on a response with audio-only formats at 128 kbps and
256 kbps (plus a higher-bitrate video format), selection picks the 256 kbps
URL. -/
theorem extract_selects_best_audio_w :
    prW.streamingData = some sdW ∧
    (chosenFormats sdW).filter isAudioOnlyFmt ≠ [] ∧
    (∃ best, pyMaxBitrate ((chosenFormats sdW).filter isAudioOnlyFmt) = some best ∧
      best ∈ (chosenFormats sdW).filter isAudioOnlyFmt ∧
      (∀ g ∈ (chosenFormats sdW).filter isAudioOnlyFmt, bitrateKey g ≤ bitrateKey best) ∧
      extractStreamUrl prW "WEB_REMIX" = finishResult best prW.videoDetails "WEB_REMIX") ∧
    (extractStreamUrl prW "WEB_REMIX").map (fun r => r.url) = some "https://u256" :=
  ⟨rfl, by decide, (extract_selects_best_audio prW "WEB_REMIX" sdW rfl).1 (by decide), rfl⟩

/-! ## Claims about the strategy chain -/

/-- Claim C1 (amended): `get_stream_url` neither reads nor writes the
cache — the service state is unchanged — so a second call re-runs the
whole strategy chain and two calls issue exactly twice the upstream calls
of one. -/
theorem get_stream_url_stateless (svc : AudioStreamingService) (vid : String) :
    (svc.get_stream_url vid).2 = svc ∧
    (svc.get_stream_url vid).1.upstreamCalls
      + (((svc.get_stream_url vid).2).get_stream_url vid).1.upstreamCalls
      = 2 * (runChain svc.strategies vid).upstreamCalls := by
  constructor
  · rfl
  · simp [AudioStreamingService.get_stream_url]
    omega

/-- Counterexample for C1 as stated: a service whose single strategy
resolves with one upstream call.  Two consecutive `get_stream_url` calls
issue two upstream calls — the second call is not answered from the cache,
which the method never consults. -/
theorem two_calls_not_cached_cex :
    ¬ ((svcOnce.get_stream_url "dQw4w9WgXcQ").1.upstreamCalls
        + (((svcOnce.get_stream_url "dQw4w9WgXcQ").2).get_stream_url "dQw4w9WgXcQ").1.upstreamCalls
        ≤ 1) := by decide

/-- Helper: a chain all of whose strategies fail yields `none`. -/
theorem runChain_fail (strategies : List (String → StrategyOutcome)) (vid : String)
    (h : ∀ s ∈ strategies, strategyFailsAt s vid) :
    (runChain strategies vid).result = none := by
  induction strategies with
  | nil => rfl
  | cons s rest ih =>
    have h1 : strategyFailsAt s vid := h s (List.mem_cons_self s rest)
    have h2 : ∀ t ∈ rest, strategyFailsAt t vid :=
      fun t ht => h t (List.mem_cons_of_mem s ht)
    cases hr : (s vid).result with
    | none => simp [runChain, hr, ih h2]
    | some r =>
      have hu : r.url = "" := h1 r hr
      simp [runChain, hr, hu, ih h2]

/-- Claim C3 (amended): when every strategy in the chain fails (returns
`None`, raises, or returns a dict with a falsy url), `get_stream_url`
returns the bare `None` — no typed failure and no list of per-strategy
reasons is produced (the reasons exist only in log output). -/
theorem get_stream_url_exhausted_none (svc : AudioStreamingService) (vid : String)
    (h : ∀ s ∈ svc.strategies, strategyFailsAt s vid) :
    (svc.get_stream_url vid).1.result = none :=
  runChain_fail svc.strategies vid h

/-- Helper: every strategy of `svcFail` fails at `"v"`. -/
theorem svcFail_all_fail : ∀ s ∈ svcFail.strategies, strategyFailsAt s "v" := by
  intro s hs
  rcases List.mem_cons.mp hs with rfl | hs2
  · intro r hr
    cases hr
  · rcases List.mem_cons.mp hs2 with rfl | hs3
    · intro r hr
      cases hr
      rfl
    · cases hs3

/-- Witness for C3 on the concrete all-failing service. -/
theorem get_stream_url_exhausted_none_w :
    (∀ s ∈ svcFail.strategies, strategyFailsAt s "v") ∧
    (svcFail.get_stream_url "v").1.result = none :=
  ⟨svcFail_all_fail, get_stream_url_exhausted_none svcFail "v" svcFail_all_fail⟩

/-- Counterexample for C3 as stated: on the all-failing service the
return value is the bare `None`; the `Option StreamResult` return carries
no per-strategy reason list. -/
theorem all_fail_returns_bare_none_cex :
    (svcFail.get_stream_url "v").1.result = none := rfl

/-! ## Claims about the per-strategy attempt budgets -/

/-- Helper: a transiently failing attempt consumes one upstream call and
recurses. -/
theorem innertubeLoop_fail_step (net : Nat → NetResp) (cn : String) (i k : Nat)
    (h : innertubeTransientFail (net i)) :
    innertubeLoop net cn i (k + 1)
      = ((innertubeLoop net cn (i + 1) k).1, (innertubeLoop net cn (i + 1) k).2 + 1) := by
  cases hn : net i with
  | err => simp [innertubeLoop, hn]
  | resp status body =>
    have hs : status ≠ 200 := by
      rw [hn] at h
      exact h
    simp [innertubeLoop, hn, hs]

/-- Helper: a failing Cobalt attempt consumes one upstream call and
recurses. -/
theorem cobaltLoop_fail_step (net : Nat → CobaltNet) (i k : Nat)
    (h : cobaltStep (net i) = none) :
    cobaltInstanceLoop net i (k + 1)
      = ((cobaltInstanceLoop net (i + 1) k).1, (cobaltInstanceLoop net (i + 1) k).2 + 1) := by
  simp [cobaltInstanceLoop, h]

/-- Claim C5 (amended): a persistently transiently-failing InnerTube
client strategy makes exactly 3 upstream attempts before giving up, but
the Cobalt strategy makes 2 attempts per instance over its 2 instances —
4 upstream attempts in total, not 3. -/
theorem strategy_attempt_budgets :
    (∀ (net : Nat → NetResp) (cn : String),
      (∀ i, i < 3 → innertubeTransientFail (net i)) →
      tryInnertubeClient net cn = (none, 3)) ∧
    (∀ net : Nat → CobaltNet,
      (∀ i, i < 4 → cobaltStep (net i) = none) →
      tryCobaltApi net = (none, 4)) := by
  constructor
  · intro net cn h
    have e0 : innertubeLoop net cn 0 3
        = ((innertubeLoop net cn 1 2).1, (innertubeLoop net cn 1 2).2 + 1) :=
      innertubeLoop_fail_step net cn 0 2 (h 0 (by omega))
    have e1 : innertubeLoop net cn 1 2
        = ((innertubeLoop net cn 2 1).1, (innertubeLoop net cn 2 1).2 + 1) :=
      innertubeLoop_fail_step net cn 1 1 (h 1 (by omega))
    have e2 : innertubeLoop net cn 2 1
        = ((innertubeLoop net cn 3 0).1, (innertubeLoop net cn 3 0).2 + 1) :=
      innertubeLoop_fail_step net cn 2 0 (h 2 (by omega))
    have e3 : innertubeLoop net cn 3 0 = (none, 0) := rfl
    unfold tryInnertubeClient
    rw [e0, e1, e2, e3]
  · intro net h
    have e0 : cobaltInstanceLoop net 0 2
        = ((cobaltInstanceLoop net 1 1).1, (cobaltInstanceLoop net 1 1).2 + 1) :=
      cobaltLoop_fail_step net 0 1 (h 0 (by omega))
    have e1 : cobaltInstanceLoop net 1 1
        = ((cobaltInstanceLoop net 2 0).1, (cobaltInstanceLoop net 2 0).2 + 1) :=
      cobaltLoop_fail_step net 1 0 (h 1 (by omega))
    have ez2 : cobaltInstanceLoop net 2 0 = (none, 0) := rfl
    have f0 : cobaltInstanceLoop net 0 2 = (none, 2) := by
      rw [e0, e1, ez2]
    have e2 : cobaltInstanceLoop net 2 2
        = ((cobaltInstanceLoop net 3 1).1, (cobaltInstanceLoop net 3 1).2 + 1) :=
      cobaltLoop_fail_step net 2 1 (h 2 (by omega))
    have e3 : cobaltInstanceLoop net 3 1
        = ((cobaltInstanceLoop net 4 0).1, (cobaltInstanceLoop net 4 0).2 + 1) :=
      cobaltLoop_fail_step net 3 0 (h 3 (by omega))
    have ez4 : cobaltInstanceLoop net 4 0 = (none, 0) := rfl
    have f1 : cobaltInstanceLoop net 2 2 = (none, 2) := by
      rw [e2, e3, ez4]
    simp [tryCobaltApi, f0, f1]

/-- Witness for C5 on concrete always-failing oracles. -/
theorem strategy_attempt_budgets_w :
    innertubeTransientFail (innertube500 0) ∧
    tryInnertubeClient innertube500 "ANDROID" = (none, 3) ∧
    tryCobaltApi cobaltAllErr = (none, 4) :=
  ⟨by exact (by norm_num : (500 : Nat) ≠ 200),
   strategy_attempt_budgets.1 innertube500 "ANDROID"
     (fun i _ => by exact (by norm_num : (500 : Nat) ≠ 200)),
   strategy_attempt_budgets.2 cobaltAllErr (fun i _ => rfl)⟩

/-- Counterexample for C5 as stated: the Cobalt strategy, failing
transiently throughout, makes 4 upstream attempts, not 3. -/
theorem cobalt_attempts_not_three_cex :
    (tryCobaltApi cobaltAllErr).2 = 4 ∧ (tryCobaltApi cobaltAllErr).2 ≠ 3 := by decide

/-! ## Claims about the streaming relay -/

/-- Helper: a non-403 upstream response is passed through at any point of
the retry loop, consuming exactly one fetch. -/
theorem streamLoop_pass (resolve : Nat → Option StreamInfoDict) (fetch : Nat → FetchResp)
    (url : String) (fi ri k : Nat) (h : (fetch fi).status ≠ 403) :
    streamLoop resolve fetch url fi ri k = (mkOk (fetch fi), fi + 1) := by
  cases k with
  | zero => simp [streamLoop, h]
  | succ k => simp [streamLoop, h]

/-- Helper: the retry loop never produces a 451 error. -/
theorem streamLoop_never_451 (k : Nat) :
    ∀ (resolve : Nat → Option StreamInfoDict) (fetch : Nat → FetchResp)
      (url : String) (fi ri : Nat) (d : String) (n : Nat),
      streamLoop resolve fetch url fi ri k ≠ (RelayOutcome.httpError 451 d, n) := by
  induction k with
  | zero =>
    intro resolve fetch url fi ri d n h
    by_cases hs : (fetch fi).status = 403 <;> simp [streamLoop, hs, mkOk] at h
  | succ k ih =>
    intro resolve fetch url fi ri d n h
    by_cases hs : (fetch fi).status = 403
    · cases hr : resolve ri with
      | none => simp [streamLoop, hs, hr] at h
      | some si =>
        cases hu : si.url with
        | none => simp [streamLoop, hs, hr, hu] at h
        | some u =>
          by_cases he : u = ""
          · simp [streamLoop, hs, hr, hu, he] at h
          · simp only [streamLoop, hs, hr, hu, he, if_true, if_neg] at h
            exact ih resolve fetch u (fi + 1) (ri + 1) d n (by simpa [hs, he] using h)
    · simp [streamLoop, hs, mkOk] at h

/-- Helper: with every fetch returning 403 and every re-resolution
producing a fresh url, the loop exhausts its budget, making one fetch per
iteration, and ends with the access-denied 403 error. -/
theorem streamLoop_all403 (resolve : Nat → Option StreamInfoDict) (fetch : Nat → FetchResp)
    (hres : ∀ j, ∃ si u, resolve j = some si ∧ si.url = some u ∧ u ≠ "")
    (hf : ∀ i, (fetch i).status = 403) :
    ∀ (k : Nat) (url : String) (fi ri : Nat),
      streamLoop resolve fetch url fi ri k
        = (RelayOutcome.httpError 403 "Stream access denied - YouTube URL expired", fi + k + 1) := by
  intro k
  induction k with
  | zero =>
    intro url fi ri
    simp [streamLoop, hf fi]
  | succ k ih =>
    intro url fi ri
    obtain ⟨si, u, h1, h2, h3⟩ := hres ri
    have step : streamLoop resolve fetch url fi ri (k + 1)
        = streamLoop resolve fetch u (fi + 1) (ri + 1) k := by
      simp [streamLoop, hf fi, h1, h2, h3]
    rw [step, ih u (fi + 1) (ri + 1)]
    have : fi + 1 + k + 1 = fi + (k + 1) + 1 := by omega
    rw [this]

/-- Helper: the retry loop makes at most `k + 1` fetch attempts beyond
index `fi`. -/
theorem streamLoop_fetch_le (k : Nat) :
    ∀ (resolve : Nat → Option StreamInfoDict) (fetch : Nat → FetchResp)
      (url : String) (fi ri : Nat),
      (streamLoop resolve fetch url fi ri k).2 ≤ fi + k + 1 := by
  induction k with
  | zero =>
    intro resolve fetch url fi ri
    by_cases hs : (fetch fi).status = 403 <;> simp [streamLoop, hs, mkOk]
  | succ k ih =>
    intro resolve fetch url fi ri
    by_cases hs : (fetch fi).status = 403
    · cases hr : resolve ri with
      | none => simp [streamLoop, hs, hr]
      | some si =>
        cases hu : si.url with
        | none => simp [streamLoop, hs, hr, hu]
        | some u =>
          by_cases he : u = ""
          · simp [streamLoop, hs, hr, hu, he]
          · have step : streamLoop resolve fetch url fi ri (k + 1)
                = streamLoop resolve fetch u (fi + 1) (ri + 1) k := by
              simp [streamLoop, hs, hr, hu, he]
            rw [step]
            have := ih resolve fetch u (fi + 1) (ri + 1)
            omega
    · simp [streamLoop, hs, mkOk]

/-- Claim C2 (amended): every relay call makes at most 4 upstream fetch
attempts (1 initial + up to 3 retries, `max_retries = 3`), not 3; on a 403
the relay re-resolves by calling `get_stream_url` again (there is no cache
entry to invalidate — the resolver keeps none) and retries with the fresh
URL; when every fetch returns 403 the caller receives the 403
access-denied error, distinct from the 503/not-found failures, after
exactly 4 attempts. -/
theorem relay_403_retry_bound :
    (∀ (p x sp : Option String) (resolve : Nat → Option StreamInfoDict)
       (fetch : Nat → FetchResp), (stream_youtube p x sp resolve fetch).2 ≤ 4) ∧
    (∀ (p x sp : Option String) (resolve : Nat → Option StreamInfoDict)
       (fetch : Nat → FetchResp),
      (p = sp ∨ x = sp) →
      (∀ j, ∃ si u, resolve j = some si ∧ si.url = some u ∧ u ≠ "") →
      (∀ si, resolve 0 = some si → si.error ≠ some "YOUTUBE_PROTECTION") →
      (∀ i, (fetch i).status = 403) →
      stream_youtube p x sp resolve fetch
        = (RelayOutcome.httpError 403 "Stream access denied - YouTube URL expired", 4)) := by
  constructor
  · intro p x sp resolve fetch
    by_cases hcred : p ≠ sp ∧ x ≠ sp
    · simp [stream_youtube, hcred]
    · cases hr : resolve 0 with
      | none => simp [stream_youtube, hcred, hr]
      | some si =>
        by_cases herr : si.error = some "YOUTUBE_PROTECTION"
        · simp [stream_youtube, hcred, hr, herr]
        · cases hu : si.url with
          | none => simp [stream_youtube, hcred, hr, herr, hu]
          | some u =>
            by_cases he : u = ""
            · simp [stream_youtube, hcred, hr, herr, hu, he]
            · have step : stream_youtube p x sp resolve fetch
                  = streamLoop resolve fetch u 0 1 3 := by
                simp [stream_youtube, hcred, hr, herr, hu, he]
              rw [step]
              have := streamLoop_fetch_le 3 resolve fetch u 0 1
              omega
  · intro p x sp resolve fetch hcred hres herr hf
    obtain ⟨si, u, h1, h2, h3⟩ := hres 0
    have hcred2 : ¬ (p ≠ sp ∧ x ≠ sp) := by
      rcases hcred with h | h <;> simp [h]
    simp [stream_youtube, hcred2, h1, herr si h1, h2, h3,
      streamLoop_all403 resolve fetch hres hf 3 u 0 1]

/-- Witness for C2 on concrete oracles: an always-403 upstream with an
always-succeeding resolver. -/
theorem relay_403_retry_bound_w :
    (∀ i, (fetch403 i).status = 403) ∧
    (stream_youtube (some "pw") none (some "pw") resolveGood fetch403).2 ≤ 4 ∧
    stream_youtube (some "pw") none (some "pw") resolveGood fetch403
      = (RelayOutcome.httpError 403 "Stream access denied - YouTube URL expired", 4) :=
  ⟨fun _ => rfl,
   relay_403_retry_bound.1 (some "pw") none (some "pw") resolveGood fetch403,
   relay_403_retry_bound.2 (some "pw") none (some "pw") resolveGood fetch403
     (Or.inl rfl)
     (fun _ => ⟨goodDict, "https://r.example/a", rfl, rfl, by decide⟩)
     (fun si h => by cases h; decide)
     (fun _ => rfl)⟩

/-- Counterexample for C2 as stated: with every upstream fetch answering
403, the relay makes 4 upstream fetch attempts, exceeding the claimed
bound of 3 total attempts per relay call. -/
theorem relay_four_attempts_cex :
    (stream_youtube (some "pw") none (some "pw") resolveGood fetch403).2 = 4 ∧
    ¬ ((stream_youtube (some "pw") none (some "pw") resolveGood fetch403).2 ≤ 3) := by
  decide

/-- Claim C4 (amended): the relay maps a failed resolution (`None`, or a
dict without a url) to a 503 error, and maps a resolver dict carrying the
`YOUTUBE_PROTECTION` error marker to a 451 error distinct from the generic
failures; however, the v3 resolver never produces such a marker — on
exhaustion it returns the bare `None` — so through the real strategy chain
the 451 path is unreachable and every resolution failure surfaces as
503. -/
theorem relay_failure_statuses :
    (∀ (p x sp : Option String) (fetch : Nat → FetchResp), (p = sp ∨ x = sp) →
      stream_youtube p x sp (fun _ => none) fetch
        = (RelayOutcome.httpError 503 "Stream URL not available", 0)) ∧
    (∀ (p x sp : Option String) (fetch : Nat → FetchResp) (si : StreamInfoDict),
      (p = sp ∨ x = sp) → si.error = some "YOUTUBE_PROTECTION" →
      stream_youtube p x sp (fun _ => some si) fetch
        = (RelayOutcome.httpError 451
            (si.error_message.getD "Content temporarily unavailable due to YouTube protections"),
           0)) ∧
    (∀ (p x sp : Option String) (strategies : List (String → StrategyOutcome))
       (vid : String) (fetch : Nat → FetchResp) (d : String) (n : Nat),
      stream_youtube p x sp (resolverResolve strategies vid) fetch
        ≠ (RelayOutcome.httpError 451 d, n)) := by
  refine ⟨?_, ?_, ?_⟩
  · intro p x sp fetch hcred
    have hcred2 : ¬ (p ≠ sp ∧ x ≠ sp) := by
      rcases hcred with h | h <;> simp [h]
    simp [stream_youtube, hcred2]
  · intro p x sp fetch si hcred herr
    have hcred2 : ¬ (p ≠ sp ∧ x ≠ sp) := by
      rcases hcred with h | h <;> simp [h]
    simp [stream_youtube, hcred2, herr]
  · intro p x sp strategies vid fetch d n h
    by_cases hcred : p ≠ sp ∧ x ≠ sp
    · simp [stream_youtube, hcred] at h
    · cases hr : (runChain strategies vid).result with
      | none =>
        simp [stream_youtube, hcred, resolverResolve, hr] at h
      | some r =>
        by_cases hu : r.url = ""
        · simp [stream_youtube, hcred, resolverResolve, hr, toDict, hu] at h
        · simp only [stream_youtube, hcred, resolverResolve, hr, toDict, if_neg] at h
          have h451 := streamLoop_never_451 3 (resolverResolve strategies vid) fetch
            r.url 0 1 d n
          simp [resolverResolve, hr, toDict, hu] at h h451
          exact h451 h
/-- Witness for C4: concrete resolution failure gives 503, and a concrete
protection-marked dict gives 451. -/
theorem relay_failure_statuses_w :
    stream_youtube (some "pw") none (some "pw") (fun _ => none) fetch404
      = (RelayOutcome.httpError 503 "Stream URL not available", 0) ∧
    stream_youtube (some "pw") none (some "pw") (fun _ => some protDict) fetch404
      = (RelayOutcome.httpError 451
          (protDict.error_message.getD "Content temporarily unavailable due to YouTube protections"),
         0) :=
  ⟨relay_failure_statuses.1 (some "pw") none (some "pw") fetch404 (Or.inl rfl),
   relay_failure_statuses.2.1 (some "pw") none (some "pw") fetch404 protDict
     (Or.inl rfl) rfl⟩

/-- Counterexample for C4 as stated: a chain whose strategy receives an
upstream protection-style rejection (a 200 player response with no
`streamingData`) resolves to `None`, and the caller receives the generic
503, not a 451 — the resolver does not propagate a content-protection
error kind. -/
theorem protection_rejection_gets_503_cex :
    stream_youtube (some "pw") none (some "pw") (resolverResolve chainProt "vid") fetch404
      = (RelayOutcome.httpError 503 "Stream URL not available", 0) := by decide

/-- Claim C9 (amended): the relay endpoint does re-validate the
application-level credential: a request whose query password and
`X-Server-Password` header both differ from the configured password is
rejected with 401 before any resolution; among requests presenting a valid
credential (either way), the response is independent of the credential
values. -/
theorem relay_credential_validation :
    (∀ (p x sp : Option String) (resolve : Nat → Option StreamInfoDict)
       (fetch : Nat → FetchResp), (p ≠ sp ∧ x ≠ sp) →
      stream_youtube p x sp resolve fetch = (RelayOutcome.httpError 401 "Unauthorized", 0)) ∧
    (∀ (p1 x1 p2 x2 sp : Option String) (resolve : Nat → Option StreamInfoDict)
       (fetch : Nat → FetchResp), (p1 = sp ∨ x1 = sp) → (p2 = sp ∨ x2 = sp) →
      stream_youtube p1 x1 sp resolve fetch = stream_youtube p2 x2 sp resolve fetch) := by
  constructor
  · intro p x sp resolve fetch h
    simp [stream_youtube, h]
  · intro p1 x1 p2 x2 sp resolve fetch h1 h2
    have h1n : ¬ (p1 ≠ sp ∧ x1 ≠ sp) := by
      rcases h1 with h | h <;> simp [h]
    have h2n : ¬ (p2 ≠ sp ∧ x2 ≠ sp) := by
      rcases h2 with h | h <;> simp [h]
    simp [stream_youtube, h1n, h2n]

/-- Witness for C9: a wrong password is rejected with 401, and passing the
right password by query or by header gives identical responses. -/
theorem relay_credential_validation_w :
    stream_youtube (some "wrong") none (some "right") resolveGood fetch404
      = (RelayOutcome.httpError 401 "Unauthorized", 0) ∧
    stream_youtube (some "right") none (some "right") resolveGood fetch404
      = stream_youtube none (some "right") (some "right") resolveGood fetch404 :=
  ⟨relay_credential_validation.1 (some "wrong") none (some "right") resolveGood fetch404
     ⟨by decide, by decide⟩,
   relay_credential_validation.2 (some "right") none none (some "right") (some "right")
     resolveGood fetch404 (Or.inl rfl) (Or.inr rfl)⟩

/-- Counterexample for C9 as stated: two relay requests that differ only
in the credential value produce different responses — one is answered,
the other is rejected with 401 on account of the credential. -/
theorem credential_changes_response_cex :
    stream_youtube (some "wrong") none (some "right") resolveGood fetch404
      = (RelayOutcome.httpError 401 "Unauthorized", 0) ∧
    stream_youtube (some "right") none (some "right") resolveGood fetch404
      ≠ stream_youtube (some "wrong") none (some "right") resolveGood fetch404 := by
  decide

/-- Claim C10: a relay call whose upstream fetch returns any status other
than 403 passes that status and the upstream body through to the caller,
copying Content-Type (default `audio/webm`) and, when present,
Content-Length and Content-Range, and always setting
`Accept-Ranges: bytes` and the permissive CORS headers. -/
theorem relay_passthrough (p x sp : Option String)
    (resolve : Nat → Option StreamInfoDict) (fetch : Nat → FetchResp)
    (si : StreamInfoDict) (u : String)
    (hcred : p = sp ∨ x = sp)
    (hres : resolve 0 = some si)
    (herr : si.error ≠ some "YOUTUBE_PROTECTION")
    (hurl : si.url = some u) (hu : u ≠ "")
    (hst : (fetch 0).status ≠ 403) :
    stream_youtube p x sp resolve fetch
      = (RelayOutcome.ok (fetch 0).status (responseHeaders (fetch 0)) (fetch 0).body, 1) ∧
    ("Accept-Ranges", "bytes") ∈ responseHeaders (fetch 0) ∧
    ("Access-Control-Allow-Origin", "*") ∈ responseHeaders (fetch 0) ∧
    ("Content-Type", (fetch 0).contentType.getD "audio/webm") ∈ responseHeaders (fetch 0) ∧
    (∀ v, (fetch 0).contentLength = some v →
      ("Content-Length", v) ∈ responseHeaders (fetch 0)) ∧
    (∀ v, (fetch 0).contentRange = some v →
      ("Content-Range", v) ∈ responseHeaders (fetch 0)) := by
  have hcred2 : ¬ (p ≠ sp ∧ x ≠ sp) := by
    rcases hcred with h | h <;> simp [h]
  refine ⟨?_, ?_, ?_, ?_, ?_, ?_⟩
  · simp [stream_youtube, hcred2, hres, herr, hurl, hu,
      streamLoop_pass resolve fetch u 0 1 3 hst, mkOk]
  · simp [responseHeaders]
  · simp [responseHeaders]
  · simp [responseHeaders]
  · intro v hv
    simp [responseHeaders, hv]
  · intro v hv
    simp [responseHeaders, hv]

/-- Witness for C10: a 404 upstream response with a Content-Length is
passed through with its status, body and headers. -/
theorem relay_passthrough_w :
    (fetch404 0).status ≠ 403 ∧
    (stream_youtube (some "pw") none (some "pw") resolveGood fetch404
      = (RelayOutcome.ok (fetch404 0).status (responseHeaders (fetch404 0)) (fetch404 0).body,
         1) ∧
    ("Accept-Ranges", "bytes") ∈ responseHeaders (fetch404 0) ∧
    ("Access-Control-Allow-Origin", "*") ∈ responseHeaders (fetch404 0) ∧
    ("Content-Type", (fetch404 0).contentType.getD "audio/webm") ∈ responseHeaders (fetch404 0) ∧
    (∀ v, (fetch404 0).contentLength = some v →
      ("Content-Length", v) ∈ responseHeaders (fetch404 0)) ∧
    (∀ v, (fetch404 0).contentRange = some v →
      ("Content-Range", v) ∈ responseHeaders (fetch404 0))) :=
  ⟨by decide,
   relay_passthrough (some "pw") none (some "pw") resolveGood fetch404 goodDict
     "https://r.example/a" (Or.inl rfl) rfl (by decide) rfl (by decide) (by decide)⟩
